import Mathlib

/-!
Shallow embedding of the proxy-devops plugin host and of its
k8s_native_port_forward relay capability, together with proofs about the
frozen specification claims.

Sources embedded:
* `src/main.rs` — plugin discovery/loading, CLI composition and dispatch.
* `plugins/k8s_native_port_forward/src/lib.rs` — protocol parsing,
  per-chunk classification/logging, pod resolution, relay copy loops,
  the Ctrl+C handler, and the CLI override logic of `run`.

Conventions: machine bytes (`u8`) are modelled as `Nat` (every concrete
byte used in a witness is `< 256`); `println!` output is modelled as the
list of printed lines; the timestamp that `log_message` obtains from
`Utc::now()` is passed in as an explicit `String` parameter; process
termination (`panic!` via `unwrap`, `std::process::exit`) is modelled
explicitly (`Option`/exit fields).
-/

/-! ## Protocol (lib.rs lines 66-81) -/

/-- `enum Protocol { Tcp, Http, Postgres }` from lib.rs. -/
inductive Protocol where
  | Tcp : Protocol
  | Http : Protocol
  | Postgres : Protocol
deriving DecidableEq, Repr

/-- `impl From<&str> for Protocol` (lib.rs lines 73-81): match on
`s.to_lowercase()`; `"http"` gives Http, `"postgres" | "postgresql"`
gives Postgres, anything else Tcp.  Rust `str::to_lowercase` is modelled
by `String.toLower`; the two agree on every string whose lowercase form
could equal one of the three keywords. -/
def Protocol.fromStr (s : String) : Protocol :=
  if s.toLower = "http" then Protocol.Http
  else if s.toLower = "postgres" then Protocol.Postgres
  else if s.toLower = "postgresql" then Protocol.Postgres
  else Protocol.Tcp

/-! ## UTF-8 validation/decoding, modelling `std::str::from_utf8` -/

/-- A UTF-8 continuation byte: `0x80..=0xBF`. -/
def utf8Cont (b : Nat) : Bool := decide (0x80 ≤ b ∧ b < 0xC0)

/-- Allowed first continuation byte of a three-byte sequence (excludes
overlong forms for lead `0xE0` and surrogate range for lead `0xED`). -/
def utf8Cont3First (b b1 : Nat) : Bool :=
  if b = 0xE0 then decide (0xA0 ≤ b1 ∧ b1 < 0xC0)
  else if b = 0xED then decide (0x80 ≤ b1 ∧ b1 < 0xA0)
  else utf8Cont b1

/-- Allowed first continuation byte of a four-byte sequence (excludes
overlong forms for lead `0xF0` and code points above `U+10FFFF` for lead
`0xF4`). -/
def utf8Cont4First (b b1 : Nat) : Bool :=
  if b = 0xF0 then decide (0x90 ≤ b1 ∧ b1 < 0xC0)
  else if b = 0xF4 then decide (0x80 ≤ b1 ∧ b1 < 0x90)
  else utf8Cont b1

/-- Strict UTF-8 decoding of a byte list, modelling
`std::str::from_utf8`: `some` exactly on valid UTF-8 (no overlong
encodings, no surrogates, maximum `U+10FFFF`), `none` otherwise. -/
def utf8Decode : List Nat → Option (List Char)
  | [] => some []
  | b :: rest =>
    if b < 0x80 then
      (utf8Decode rest).map (fun cs => Char.ofNat b :: cs)
    else if b < 0xC2 then none
    else if b < 0xE0 then
      match rest with
      | b1 :: rest1 =>
        if utf8Cont b1 then
          (utf8Decode rest1).map
            (fun cs => Char.ofNat ((b - 0xC0) * 64 + (b1 - 0x80)) :: cs)
        else none
      | [] => none
    else if b < 0xF0 then
      match rest with
      | b1 :: b2 :: rest2 =>
        if utf8Cont3First b b1 && utf8Cont b2 then
          (utf8Decode rest2).map
            (fun cs =>
              Char.ofNat ((b - 0xE0) * 4096 + (b1 - 0x80) * 64 + (b2 - 0x80)) :: cs)
        else none
      | _ => none
    else if b < 0xF5 then
      match rest with
      | b1 :: b2 :: b3 :: rest3 =>
        if utf8Cont4First b b1 && utf8Cont b2 && utf8Cont b3 then
          (utf8Decode rest3).map
            (fun cs =>
              Char.ofNat ((b - 0xF0) * 262144 + (b1 - 0x80) * 4096 +
                (b2 - 0x80) * 64 + (b3 - 0x80)) :: cs)
        else none
      | _ => none
    else none

/-! ## Rendering helpers shared by the log functions -/

/-- One lowercase hexadecimal digit. -/
def hexDigit (d : Nat) : Char :=
  if d < 10 then Char.ofNat (48 + d) else Char.ofNat (87 + d)

/-- `hex::encode`: two lowercase hex digits per byte. -/
def hexEncode (data : List Nat) : String :=
  String.mk (data.flatMap (fun b => [hexDigit (b / 16 % 16), hexDigit (b % 16)]))

/-- Rust `trim_end_matches` with a NUL pattern, on the character level:
drop every trailing NUL character (code 0). -/
def trimEndNul (cs : List Char) : List Char :=
  (cs.reverse.dropWhile (fun c => c = Char.ofNat 0)).reverse

/-- `c.is_ascii() && (c.is_ascii_graphic() || c.is_ascii_whitespace())`
from lib.rs line 199. -/
def isPrintableAsciiChar (c : Char) : Bool :=
  decide (c.toNat < 128) &&
    (decide (33 ≤ c.toNat ∧ c.toNat ≤ 126) ||
      decide (c.toNat = 32 ∨ c.toNat = 9 ∨ c.toNat = 10 ∨ c.toNat = 12 ∨ c.toNat = 13))

/-- The replace chain of lib.rs line 200: escape LF as the two
characters backslash-n and CR as backslash-r. -/
def tcpEscape (cs : List Char) : String :=
  String.mk (cs.flatMap (fun c =>
    if c = Char.ofNat 10 then [Char.ofNat 92, Char.ofNat 110]
    else if c = Char.ofNat 13 then [Char.ofNat 92, Char.ofNat 114]
    else [c]))

/-! ## log_tcp_message (lib.rs lines 189-207) -/

/-- `log_tcp_message(direction, data, timestamp)`: header line with byte
count, hex preview of the first 100 bytes, optional escaped-text line if
the preview is printable ASCII, and a truncation note when more bytes
remain.  Returns the printed lines. -/
def log_tcp_message (direction : String) (data : List Nat) (timestamp : String) :
    List String :=
  let preview_len := min 100 data.length
  let preview := data.take preview_len
  let textLines :=
    match utf8Decode preview with
    | some cs =>
      if cs.all isPrintableAsciiChar then ["   Text: " ++ tcpEscape cs] else []
    | none => []
  let more :=
    if preview_len < data.length then
      ["   ... (" ++ toString (data.length - preview_len) ++ " more bytes)"]
    else []
  ("🔌 [" ++ timestamp ++ "] " ++ direction ++ " TCP Message (" ++
      toString data.length ++ " bytes):") ::
    ("   Hex: " ++ hexEncode preview) :: (textLines ++ more)

/-! ## log_postgres_message (lib.rs lines 147-187) -/

/-- The PostgreSQL header line printed at lib.rs line 152. -/
def pgHeader (timestamp direction : String) : String :=
  "🐘 [" ++ timestamp ++ "] " ++ direction ++ " PostgreSQL Message:"

/-- `u32::from_be_bytes([b1,b2,b3,b4])`. -/
def from_be_u32 (b1 b2 b3 b4 : Nat) : Nat :=
  ((b1 * 256 + b2) * 256 + b3) * 256 + b4

/-- The tag dispatch of lib.rs lines 159-183 for a chunk
`b0 :: b1 :: b2 :: b3 :: b4 :: payload` of length at least five.
Byte values name ASCII tags: 81 Q, 80 P, 66 B, 69 E, 83 S, 88 X, 84 T,
68 D, 67 C, 90 Z, 82 R. -/
def pgBody (b0 b1 b2 b3 b4 : Nat) (payload : List Nat) : List String :=
  let length := from_be_u32 b1 b2 b3 b4
  if b0 = 81 then
    match utf8Decode payload with
    | some cs => ["   Query: " ++ String.mk (trimEndNul cs)]
    | none => []
  else if b0 = 80 then ["   Parse message (length: " ++ toString length ++ ")"]
  else if b0 = 66 then ["   Bind message (length: " ++ toString length ++ ")"]
  else if b0 = 69 then ["   Execute message (length: " ++ toString length ++ ")"]
  else if b0 = 83 then ["   Sync message"]
  else if b0 = 88 then ["   Terminate message"]
  else if b0 = 84 then ["   Row Description (length: " ++ toString length ++ ")"]
  else if b0 = 68 then ["   Data Row (length: " ++ toString length ++ ")"]
  else if b0 = 67 then
    match utf8Decode payload with
    | some cs => ["   Command Complete: " ++ String.mk (trimEndNul cs)]
    | none => []
  else if b0 = 90 then ["   Ready for Query"]
  else if b0 = 82 then
    ["   Authentication Response (length: " ++ toString length ++ ")"]
  else
    ["   Unknown message type \x27" ++ String.mk [Char.ofNat b0] ++
        "\x27 (length: " ++ toString length ++ ")",
      "   Raw data: " ++ hexEncode ((b0 :: b1 :: b2 :: b3 :: b4 :: payload).take 50)]

/-- `log_postgres_message(direction, data, timestamp)` (lib.rs lines
147-187): an empty chunk returns immediately with no output; otherwise
the PostgreSQL header is printed, then a chunk of length at least five is
parsed by tag (`pgBody`) while a shorter chunk falls back to
`log_tcp_message`. -/
def log_postgres_message (direction : String) (data : List Nat) (timestamp : String) :
    List String :=
  match data with
  | [] => []
  | b0 :: b1 :: b2 :: b3 :: b4 :: payload =>
    pgHeader timestamp direction :: pgBody b0 b1 b2 b3 b4 payload
  | short =>
    pgHeader timestamp direction :: log_tcp_message direction short timestamp

/-! ## log_http_message (lib.rs lines 114-145) -/

/-- Split a character list at the first CRLFCRLF occurrence, modelling
`text.find` of the four-character separator followed by the two slices
`text[..header_end]` and `text[header_end + 4..]` (lib.rs lines 123-125). -/
def splitCrlfCrlf : List Char → Option (List Char × List Char)
  | a :: b :: c :: d :: rest =>
    if a = Char.ofNat 13 ∧ b = Char.ofNat 10 ∧ c = Char.ofNat 13 ∧ d = Char.ofNat 10 then
      some ([], rest)
    else
      (splitCrlfCrlf (b :: c :: d :: rest)).map (fun p => (a :: p.1, p.2))
  | _ => none
termination_by cs => cs.length
decreasing_by simp

/-- Split a character list on LF, keeping (possibly empty) segments. -/
def splitOnNl : List Char → List (List Char)
  | [] => [[]]
  | c :: rest =>
    if c = Char.ofNat 10 then [] :: splitOnNl rest
    else
      match splitOnNl rest with
      | seg :: segs => (c :: seg) :: segs
      | [] => [[c]]

/-- Drop one trailing CR from a segment, if present. -/
def dropOneCr (seg : List Char) : List Char :=
  match seg.reverse with
  | c :: rest => if c = Char.ofNat 13 then rest.reverse else seg
  | [] => seg

/-- Rust `str::lines`: split on LF, strip the CR of a CRLF ending from
every line that was followed by LF, and drop one trailing empty line. -/
def rustLines (cs : List Char) : List (List Char) :=
  match (splitOnNl cs).reverse with
  | last :: revInit =>
    let inits := revInit.reverse.map dropOneCr
    if last = [] then inits else inits ++ [last]
  | [] => []

/-- `log_http_message(direction, data, timestamp)` (lib.rs lines
114-145): decode the chunk as UTF-8; on a recognized HTTP start prefix,
print the HTTP header line and the headers/body split at the first
CRLFCRLF (body omitted when empty, whole text printed when no CRLFCRLF);
on no prefix match or invalid UTF-8, fall back to `log_tcp_message`. -/
def log_http_message (direction : String) (data : List Nat) (timestamp : String) :
    List String :=
  match utf8Decode data with
  | some cs =>
    let text := String.mk cs
    if text.startsWith "GET " || text.startsWith "POST " ||
        text.startsWith "PUT " || text.startsWith "DELETE " ||
        text.startsWith "HTTP/" then
      ("🌐 [" ++ timestamp ++ "] " ++ direction ++ " HTTP Message:") ::
        (match splitCrlfCrlf cs with
          | some (headers, body) =>
            "   Headers:" ::
              ((rustLines headers).map (fun l => "     " ++ String.mk l) ++
                (if body = [] then []
                  else ["   Body:", "     " ++ String.mk body]))
          | none => ["   " ++ text])
    else log_tcp_message direction data timestamp
  | none => log_tcp_message direction data timestamp

/-! ## log_message (lib.rs lines 104-112) and the relay copy loops -/

/-- `log_message(direction, protocol, data)` dispatches on the protocol.
The timestamp the Rust code formats from `Utc::now()` is an explicit
parameter here. -/
def log_message (direction : String) (protocol : Protocol) (data : List Nat)
    (timestamp : String) : List String :=
  match protocol with
  | Protocol.Http => log_http_message direction data timestamp
  | Protocol.Postgres => log_postgres_message direction data timestamp
  | Protocol.Tcp => log_tcp_message direction data timestamp

/-- One relay copy direction of `handle_native_connection` (lib.rs lines
294-338): the input list holds the successive reads of up to 8192 bytes;
a read of zero bytes (empty chunk) is EOF and ends the loop.  Every
non-empty chunk is first classified/logged and then written to the peer
unchanged (`write_all(data)` on the very slice that was read).  Returns
the printed log lines and the list of chunks written to the peer. -/
def relayDirection (direction : String) (protocol : Protocol) (timestamp : String) :
    List (List Nat) → List String × List (List Nat)
  | [] => ([], [])
  | chunk :: rest =>
    if chunk = [] then ([], [])
    else
      let next := relayDirection direction protocol timestamp rest
      (log_message direction protocol chunk timestamp ++ next.1, chunk :: next.2)

/-! ## Plugin discovery and loading (main.rs lines 29-51) -/

/-- One directory entry considered by the discovery loop of `main`:
its file name and extension, whether `Library::new` succeeds
(`openOk`), whether the `create_plugin` symbol resolves
(`hasCreateSymbol`), and the name the constructed plugin reports. -/
structure DylibCandidate where
  fileName : String
  extension : Option String
  openOk : Bool
  hasCreateSymbol : Bool
  pluginName : String
deriving DecidableEq, Repr

/-- The discovery/loading loop of main.rs lines 29-51.  Non-dylib
entries and `libplugin_api.dylib` are skipped; for a dylib candidate
`Library::new(&path).unwrap()` panics the process when opening fails
(modelled as `none`); a candidate whose `create_plugin` symbol is
missing is skipped silently; otherwise the plugin is constructed and
registered.  `some names` lists the loaded plugin names in order. -/
def loadPlugins : List DylibCandidate → Option (List String)
  | [] => some []
  | c :: rest =>
    if c.extension = some "dylib" then
      if c.fileName = "libplugin_api.dylib" then loadPlugins rest
      else if c.openOk then
        if c.hasCreateSymbol then
          (loadPlugins rest).map (fun ns => c.pluginName :: ns)
        else loadPlugins rest
      else none
    else loadPlugins rest

/-- The names that the loading loop registers when every reached
`Library::new` call succeeds. -/
def loadedNames (cs : List DylibCandidate) : List String :=
  cs.filterMap (fun c =>
    if c.extension = some "dylib" ∧ c.fileName ≠ "libplugin_api.dylib" ∧
        c.hasCreateSymbol then
      some c.pluginName
    else none)

/-- The dispatch loop of main.rs lines 104-109: walk the loaded plugins
in order and run the first one whose name equals the parsed subcommand;
`some i` is the index of the plugin that runs. -/
def dispatchRun : List String → String → Option Nat
  | [], _ => none
  | p :: rest, sub =>
    if p = sub then some 0 else (dispatchRun rest sub).map (fun i => i + 1)

/-! ## Tail of main (main.rs lines 53-116) -/

/-- Observable outcome of the tail of `main` after argument parsing:
the process exit code, whether the usage/help text was printed
(main.rs line 113), and the lines written to stderr. -/
structure MainOutcome where
  exitCode : Nat
  printedHelp : Bool
  stderrLines : List String
deriving DecidableEq, Repr

/-- Tail of `main` (main.rs lines 53-116): with `--list-plugins` the
table is printed and `main` returns (exit code 0); with a matched
subcommand the plugin runs and `main` returns; with no subcommand the
help text plus a hint line are printed on stdout and `main` falls off
the end, so the process still exits with code 0 and writes nothing to
stderr. -/
def mainTail (listPluginsFlag : Bool) (pluginNames : List String)
    (sub : Option String) : MainOutcome :=
  if listPluginsFlag then { exitCode := 0, printedHelp := false, stderrLines := [] }
  else
    match sub with
    | some s =>
      match dispatchRun pluginNames s with
      | some _ => { exitCode := 0, printedHelp := false, stderrLines := [] }
      | none => { exitCode := 0, printedHelp := false, stderrLines := [] }
    | none => { exitCode := 0, printedHelp := true, stderrLines := [] }

/-! ## Pod resolution (lib.rs lines 209-233 and 368-378) -/

/-- The `metadata` of a listed pod; `name` is optional, as in
`k8s_openapi`. -/
structure PodMetadata where
  name : Option String
deriving DecidableEq, Repr

/-- A pod returned by the namespaced listing call. -/
structure PodK8s where
  metadata : PodMetadata
deriving DecidableEq, Repr

/-- `find_pod_by_selector` (lib.rs lines 209-233), applied to the items
the listing call returned for the selector.  An empty listing is an
error; with more than one item an informational block (header plus one
line per named pod, the selected first one included) is printed; the
result is the name of the first item, or an error when that item is
nameless.  Returns (selected pod name, printed info lines). -/
def find_pod_by_selector (selector : String) :
    List PodK8s → Except String (String × List String)
  | [] => Except.error ("No pods found matching selector: " ++ selector)
  | first :: rest =>
    let items := first :: rest
    let info :=
      if 1 < items.length then
        ("Found " ++ toString items.length ++ " pods matching selector \x27" ++
            selector ++ "\x27, using the first one:") ::
          items.filterMap (fun p => p.metadata.name.map (fun n => "  - " ++ n))
      else []
    match first.metadata.name with
    | some n => Except.ok (n, info)
    | none => Except.error "Pod has no name"

/-- `struct K8sNativeConfig` (lib.rs lines 14-22).  `u16` ports are
modelled as `Nat`. -/
structure K8sNativeConfig where
  «namespace» : String
  pod_name : Option String
  pod_selector : Option String
  local_port : Nat
  remote_port : Nat
  protocol : Option String
deriving DecidableEq, Repr

/-- `impl Default for K8sNativeConfig` (lib.rs lines 24-35). -/
def K8sNativeConfig.default : K8sNativeConfig :=
  { «namespace» := "default", pod_name := none, pod_selector := none,
    local_port := 8080, remote_port := 80, protocol := some "tcp" }

/-- The pod-name determination of `start_port_forward` (lib.rs lines
368-378): an explicit `pod_name` is used as-is, otherwise a
`pod_selector` triggers `find_pod_by_selector` on the listing, otherwise
the run fails.  The boolean records whether the listing call was made. -/
def determinePodName (config : K8sNativeConfig) (listing : List PodK8s) :
    Except String (String × Bool) :=
  match config.pod_name with
  | some name => Except.ok (name, false)
  | none =>
    match config.pod_selector with
    | some selector =>
      (find_pod_by_selector selector listing).map (fun r => (r.1, true))
    | none => Except.error "Must specify either pod_name or pod_selector"

/-- The protocol resolution of `start_port_forward` (lib.rs lines
351-355): CLI override, else config value, else `"tcp"`. -/
def resolveProtocol (override cfgProtocol : Option String) : Protocol :=
  Protocol.fromStr ((override.or cfgProtocol).getD "tcp")

/-! ## Ctrl+C handler and accept loop (lib.rs lines 384-433) -/

/-- Host-process state visible to the interrupt handler and the accept
loop: the shared atomic `running` flag, the number of currently open
relay connections, and whether (and with which code) the process has
exited. -/
structure RelayHostState where
  running : Bool
  openConnections : Nat
  exited : Option Nat
deriving DecidableEq, Repr

/-- The `ctrlc::set_handler` closure (lib.rs lines 386-390): store
`false` into the shared flag, print the shutdown line, and then call
`std::process::exit(0)` — the process terminates immediately with exit
code 0, taking every open connection with it. -/
def ctrlcHandlerStep (s : RelayHostState) : RelayHostState :=
  { s with running := false, exited := some 0 }

/-- The accept loop of lib.rs lines 405-433, run over a number of
pending incoming connections: while the process is alive and the shared
flag still reads `true` at the top of the loop, each accept opens one
more connection; once the flag is `false` (or the process has exited)
no further connection is accepted. -/
def acceptLoop (s : RelayHostState) : Nat → RelayHostState
  | 0 => s
  | n + 1 =>
    if s.exited = none ∧ s.running then
      acceptLoop { s with openConnections := s.openConnections + 1 } n
    else s

/-! ## CLI override logic of run (lib.rs lines 500-561) -/

/-- The `--pod` override block (lib.rs lines 513-520): an empty value
exits with code 1; a non-empty value replaces `pod_name` and clears
`pod_selector`. -/
def applyPodOverride (config : K8sNativeConfig) :
    Option String → Except Nat K8sNativeConfig
  | none => Except.ok config
  | some pod =>
    if pod = "" then Except.error 1
    else Except.ok { config with pod_name := some pod, pod_selector := none }

/-- The `--selector` override block (lib.rs lines 522-529): an empty
value exits with code 1; a non-empty value replaces `pod_selector` and
clears `pod_name`. -/
def applySelectorOverride (config : K8sNativeConfig) :
    Option String → Except Nat K8sNativeConfig
  | none => Except.ok config
  | some selector =>
    if selector = "" then Except.error 1
    else
      Except.ok { config with pod_selector := some selector, pod_name := none }

/-- The `--namespace` override block (lib.rs lines 531-537). -/
def applyNamespaceOverride (config : K8sNativeConfig) :
    Option String → Except Nat K8sNativeConfig
  | none => Except.ok config
  | some ns =>
    if ns = "" then Except.error 1
    else Except.ok { config with «namespace» := ns }

/-- The port override blocks (lib.rs lines 539-545). -/
def applyPortOverrides (config : K8sNativeConfig)
    (localPort remotePort : Option Nat) : K8sNativeConfig :=
  let c1 :=
    match localPort with
    | some p => { config with local_port := p }
    | none => config
  match remotePort with
  | some p => { c1 with remote_port := p }
  | none => c1

/-- The validation of lib.rs lines 548-553: with neither a pod name nor
a selector left, exit with code 1. -/
def validatePodOrSelector (config : K8sNativeConfig) :
    Except Nat K8sNativeConfig :=
  if config.pod_name = none ∧ config.pod_selector = none then Except.error 1
  else Except.ok config

/-- The whole override/validation pipeline of `run` (lib.rs lines
512-553), in source order: pod, then selector, then namespace, then
ports, then validation.  `Except.error code` models
`std::process::exit(code)`. -/
def runOverrides (config : K8sNativeConfig)
    (pod selector ns : Option String) (localPort remotePort : Option Nat) :
    Except Nat K8sNativeConfig := do
  let c1 ← applyPodOverride config pod
  let c2 ← applySelectorOverride c1 selector
  let c3 ← applyNamespaceOverride c2 ns
  validatePodOrSelector (applyPortOverrides c3 localPort remotePort)

/-! ## Helper lemmas -/

/-- When every reached `Library::new` call succeeds, the loading loop
never panics and registers exactly the dylib candidates that are not the
contract library and expose the factory symbol. -/
theorem loadPlugins_eq_loadedNames (cs : List DylibCandidate)
    (h : ∀ c ∈ cs, c.openOk = true) :
    loadPlugins cs = some (loadedNames cs) := by
  induction cs with
  | nil => rfl
  | cons c rest ih =>
    have hc : c.openOk = true := h c (List.mem_cons_self c rest)
    have hrest : loadPlugins rest = some (loadedNames rest) :=
      ih fun x hx => h x (List.mem_cons_of_mem c hx)
    by_cases hext : c.extension = some "dylib"
    · by_cases hname : c.fileName = "libplugin_api.dylib"
      · simp [loadPlugins, loadedNames, hext, hname, hrest, List.filterMap]
      · by_cases hsym : c.hasCreateSymbol = true
        · simp [loadPlugins, loadedNames, hext, hname, hc, hsym, hrest,
            List.filterMap]
        · simp [loadPlugins, loadedNames, hext, hname, hc, hsym, hrest,
            List.filterMap]
    · simp [loadPlugins, loadedNames, hext, hrest, List.filterMap]

/-- Every registered name is found by the dispatch loop. -/
theorem dispatchRun_isSome_of_mem (names : List String) (n : String)
    (h : n ∈ names) : (dispatchRun names n).isSome = true := by
  induction names with
  | nil => cases h
  | cons p rest ih =>
    by_cases hp : p = n
    · simp [dispatchRun, hp]
    · have : n ∈ rest := by
        cases h with
        | head => exact absurd rfl hp
        | tail _ hmem => exact hmem
      simp [dispatchRun, hp]
      rcases Option.isSome_iff_exists.mp (ih this) with ⟨k, hk⟩
      simp [hk]

/-- The dispatch loop selects an index no larger than any index at which
the subcommand name occurs. -/
theorem dispatchRun_le_of_getElem (names : List String) (sub : String)
    (i : Nat) (hi : names.get? i = some sub) :
    ∃ k, dispatchRun names sub = some k ∧ k ≤ i := by
  induction names generalizing i with
  | nil => simp [List.get?] at hi
  | cons p rest ih =>
    by_cases hp : p = sub
    · exact ⟨0, by simp [dispatchRun, hp], Nat.zero_le i⟩
    · cases i with
      | zero =>
        simp [List.get?] at hi
        exact absurd hi hp
      | succ i' =>
        have hi' : rest.get? i' = some sub := by simpa [List.get?] using hi
        rcases ih i' hi' with ⟨k, hk, hki⟩
        exact ⟨k + 1, by simp [dispatchRun, hp, hk], Nat.succ_le_succ hki⟩

/-! ## Claim C1 -/

/-- C1, counterexample.  The claim says a module that fails to open is
only skipped and every other module still loads.  In the code
(`Library::new(&path).unwrap()`, main.rs line 40) an open failure panics
the host: with a failing-to-open candidate followed by a good one the
loading loop aborts (`none`), so the good module is never loaded — yet
the good candidate alone would load fine. -/
theorem C1_open_failure_is_fatal :
    loadPlugins
        [⟨"libbad.dylib", some "dylib", false, true, "bad"⟩,
          ⟨"libgood.dylib", some "dylib", true, true, "good"⟩] = none ∧
      loadPlugins [⟨"libgood.dylib", some "dylib", true, true, "good"⟩] =
        some ["good"] := by
  exact ⟨rfl, rfl⟩

/-- C1, amended: as long as every candidate module opens successfully, a
candidate that lacks the `create_plugin` factory symbol is skipped
(silently, not with a warning) and every other module is still loaded
and dispatchable; only a failure to open the module terminates the host
(it panics via `unwrap`). -/
theorem C1_missing_symbol_only_skips (cs : List DylibCandidate)
    (h : ∀ c ∈ cs, c.openOk = true) :
    loadPlugins cs = some (loadedNames cs) ∧
      ∀ n ∈ loadedNames cs, (dispatchRun (loadedNames cs) n).isSome = true :=
  ⟨loadPlugins_eq_loadedNames cs h,
    fun n hn => dispatchRun_isSome_of_mem (loadedNames cs) n hn⟩

/-- C1 witness: a candidate with a missing symbol next to a healthy one;
only the healthy one is registered and it is dispatchable. -/
theorem C1_missing_symbol_only_skips_witness :
    loadPlugins
        [⟨"libnosym.dylib", some "dylib", true, false, "nosym"⟩,
          ⟨"libgood2.dylib", some "dylib", true, true, "good2"⟩] =
      some (loadedNames
        [⟨"libnosym.dylib", some "dylib", true, false, "nosym"⟩,
          ⟨"libgood2.dylib", some "dylib", true, true, "good2"⟩]) ∧
      ∀ n ∈ loadedNames
          [⟨"libnosym.dylib", some "dylib", true, false, "nosym"⟩,
            ⟨"libgood2.dylib", some "dylib", true, true, "good2"⟩],
        (dispatchRun (loadedNames
          [⟨"libnosym.dylib", some "dylib", true, false, "nosym"⟩,
            ⟨"libgood2.dylib", some "dylib", true, true, "good2"⟩]) n).isSome =
          true :=
  C1_missing_symbol_only_skips _ (by decide)

/-! ## Claim C2 -/

/-- C2, counterexample.  The claim says two capabilities with the same
name make startup fail fatally before any dispatch.  The code has no
duplicate check: loading two same-named healthy modules succeeds, and
the dispatch loop of main.rs lines 104-109 runs the first of them. -/
theorem C2_duplicate_names_not_fatal :
    loadPlugins
        [⟨"liba.dylib", some "dylib", true, true, "alpha"⟩,
          ⟨"libb.dylib", some "dylib", true, true, "alpha"⟩] =
      some ["alpha", "alpha"] ∧
      dispatchRun ["alpha", "alpha"] "alpha" = some 0 := by
  exact ⟨rfl, rfl⟩

/-- C2, amended: a name collision between loaded capabilities is not
detected; startup succeeds (whenever every module opens), and dispatch
silently runs the first loaded capability with the matching name — a
later capability at index `j` is never the one dispatched when the same
name already occurs at an earlier index `i`. -/
theorem C2_first_capability_wins (cs : List DylibCandidate)
    (hopen : ∀ c ∈ cs, c.openOk = true) (names : List String) (sub : String)
    (i j : Nat) (hij : i < j) (hi : names.get? i = some sub) :
    (loadPlugins cs).isSome = true ∧ dispatchRun names sub ≠ some j := by
  refine ⟨by simp [loadPlugins_eq_loadedNames cs hopen], ?_⟩
  rcases dispatchRun_le_of_getElem names sub i hi with ⟨k, hk, hki⟩
  rw [hk]
  intro hkj
  have : k = j := Option.some.inj hkj
  omega

/-- C2 witness: two same-named healthy modules; startup succeeds and the
capability at index 1 is never the one dispatched. -/
theorem C2_first_capability_wins_witness :
    (loadPlugins
        [⟨"liba.dylib", some "dylib", true, true, "alpha"⟩,
          ⟨"libb.dylib", some "dylib", true, true, "alpha"⟩]).isSome = true ∧
      dispatchRun ["alpha", "alpha"] "alpha" ≠ some 1 :=
  C2_first_capability_wins _ (by decide) ["alpha", "alpha"] "alpha" 0 1
    (by decide) (by decide)

/-! ## Claim C3 -/

/-- C3, confirmed: for every direction, every protocol and every
sequence of non-empty input chunks, the relay copy loop writes to the
peer exactly the chunks it read — classification/logging produces only
log lines and never alters or drops a forwarded chunk, whatever the
classification outcome. -/
theorem C3_forwarding_preserves_bytes (direction : String)
    (protocol : Protocol) (timestamp : String) (chunks : List (List Nat))
    (h : ∀ c ∈ chunks, c ≠ []) :
    (relayDirection direction protocol timestamp chunks).2 = chunks := by
  induction chunks with
  | nil => rfl
  | cons c rest ih =>
    have hc : ¬(c = []) := h c (List.mem_cons_self c rest)
    simp only [relayDirection, if_neg hc]
    exact congrArg (c :: ·)
      (ih fun x hx => h x (List.mem_cons_of_mem c hx))

/-- C3 witness: a Postgres-classified request consisting of a well-formed
query chunk and a garbage chunk is forwarded byte-for-byte. -/
theorem C3_forwarding_preserves_bytes_witness :
    (relayDirection "→ REQUEST" Protocol.Postgres "ts"
        [[81, 0, 0, 0, 9, 83, 69, 76, 69, 67, 84, 32, 49, 0], [255, 254]]).2 =
      [[81, 0, 0, 0, 9, 83, 69, 76, 69, 67, 84, 32, 49, 0], [255, 254]] :=
  C3_forwarding_preserves_bytes "→ REQUEST" Protocol.Postgres "ts"
    [[81, 0, 0, 0, 9, 83, 69, 76, 69, 67, 84, 32, 49, 0], [255, 254]]
    (by decide)

/-! ## Claim C4 -/

/-- C4, counterexample.  The claim says every chunk of length below
five, the empty chunk included, is rendered with the Tcp fallback.  The
code returns early on an empty chunk (lib.rs lines 148-150) and prints
nothing at all, while the Tcp rendering of an empty chunk is non-empty
(header and hex lines). -/
theorem C4_empty_chunk_not_tcp_rendered :
    log_postgres_message "→ REQUEST" [] "ts" = [] ∧
      log_tcp_message "→ REQUEST" [] "ts" ≠ [] := by
  exact ⟨rfl, by decide⟩

/-- C4, amended: every NON-empty chunk of length below five is rendered
with the Tcp fallback (after the PostgreSQL header line), the empty
chunk produces no output at all, and a chunk whose tag byte is `Q` with
big-endian length 9 and payload `SELECT 1` followed by NUL is logged as
a Query with text `SELECT 1` (trailing NUL trimmed). -/
theorem C4_short_fallback_and_query (direction timestamp : String)
    (data : List Nat) (hne : data ≠ []) (hlt : data.length < 5) :
    log_postgres_message direction data timestamp =
        pgHeader timestamp direction ::
          log_tcp_message direction data timestamp ∧
      log_postgres_message direction
          ([81, 0, 0, 0, 9] ++ [83, 69, 76, 69, 67, 84, 32, 49, 0]) timestamp =
        [pgHeader timestamp direction, "   Query: SELECT 1"] := by
  constructor
  · rcases data with _ | ⟨a, _ | ⟨b, _ | ⟨c, _ | ⟨d, _ | ⟨e, rest⟩⟩⟩⟩⟩
    · exact absurd rfl hne
    · rfl
    · rfl
    · rfl
    · rfl
    · exfalso
      simp only [List.length_cons] at hlt
      omega
  · rfl

/-- C4 witness: the length-3 chunk named by the claim falls back to the
Tcp rendering (preceded by the PostgreSQL header), and the claim's query
example evaluates as stated. -/
theorem C4_short_fallback_and_query_witness :
    (log_postgres_message "→ REQUEST" [1, 2, 3] "ts" =
        pgHeader "ts" "→ REQUEST" ::
          log_tcp_message "→ REQUEST" [1, 2, 3] "ts") ∧
      log_postgres_message "→ REQUEST"
          ([81, 0, 0, 0, 9] ++ [83, 69, 76, 69, 67, 84, 32, 49, 0]) "ts" =
        [pgHeader "ts" "→ REQUEST", "   Query: SELECT 1"] :=
  C4_short_fallback_and_query "→ REQUEST" "ts" [1, 2, 3] (by decide) (by decide)

/-! ## Claim C5 -/

/-- C5, confirmed: with an explicit pod name the resolution returns that
name and performs no listing call (`false` flag); with a label selector,
an empty listing is a fatal resolution error, a single named match is
returned (with no informational output), and with more than one match
the first pod of the listing order is the one returned (the other
matches appear only in the informational lines). -/
theorem C5_pod_resolution (config : K8sNativeConfig) (listing : List PodK8s)
    (nm selector n : String) (p q : PodK8s) (rest : List PodK8s)
    (hc : config.pod_name = some nm) (hp : p.metadata.name = some n) :
    determinePodName config listing = Except.ok (nm, false) ∧
      find_pod_by_selector selector [] =
        Except.error ("No pods found matching selector: " ++ selector) ∧
      find_pod_by_selector selector [p] = Except.ok (n, []) ∧
      ∃ info, find_pod_by_selector selector (p :: q :: rest) =
        Except.ok (n, info) := by
  refine ⟨?_, rfl, ?_, ?_⟩
  · simp [determinePodName, hc]
  · simp [find_pod_by_selector, hp]
  · refine ⟨("Found " ++ toString (p :: q :: rest).length ++
        " pods matching selector \x27" ++ selector ++
        "\x27, using the first one:") ::
      (p :: q :: rest).filterMap
        (fun x => x.metadata.name.map (fun m => "  - " ++ m)), ?_⟩
    simp [find_pod_by_selector, hp]

/-- C5 witness: explicit name `mypod` resolves without listing; selector
resolution on zero, one and two pods behaves as stated. -/
theorem C5_pod_resolution_witness :
    determinePodName
        { «namespace» := "default", pod_name := some "mypod",
          pod_selector := none, local_port := 8080, remote_port := 80,
          protocol := some "tcp" } [] = Except.ok ("mypod", false) ∧
      find_pod_by_selector "app=x" [] =
        Except.error ("No pods found matching selector: " ++ "app=x") ∧
      find_pod_by_selector "app=x" [⟨⟨some "p1"⟩⟩] = Except.ok ("p1", []) ∧
      ∃ info, find_pod_by_selector "app=x" [⟨⟨some "p1"⟩⟩, ⟨⟨some "p2"⟩⟩] =
        Except.ok ("p1", info) :=
  C5_pod_resolution _ [] "mypod" "app=x" "p1" ⟨⟨some "p1"⟩⟩ ⟨⟨some "p2"⟩⟩ []
    rfl rfl

/-! ## Claim C6 -/

/-- C6, counterexample.  The claim says that with no subcommand (and no
list-plugins flag) the host exits with a NON-zero code.  In main.rs
lines 111-116 the help text is printed and `main` simply returns, so the
process exits with code 0. -/
theorem C6_no_subcommand_exits_zero :
    (mainTail false ["k8s_native_port_forward"] none).exitCode = 0 ∧
      (mainTail false ["k8s_native_port_forward"] none).printedHelp = true := by
  exact ⟨rfl, rfl⟩

/-- C6, amended: when the process is invoked with no subcommand and
without the list-plugins flag, the host prints the usage text (plus a
hint line) on stdout, emits no error text, and exits with code 0 —
success, not a non-zero code. -/
theorem C6_no_subcommand_help_success (pluginNames : List String) :
    mainTail false pluginNames none =
      { exitCode := 0, printedHelp := true, stderrLines := [] } :=
  rfl

/-! ## Claim C7 -/

/-- C7, counterexample.  The claim says an interrupt only stops the
acceptance of new connections and does not forcibly close already-open
connections.  The Ctrl+C handler of lib.rs lines 386-390 calls
`std::process::exit(0)` after storing the flag: with three connections
open the process terminates immediately (exit code 0), taking those
connections with it — it does not keep running with `exited = none`. -/
theorem C7_interrupt_kills_process :
    (ctrlcHandlerStep ⟨true, 3, none⟩).exited = some 0 ∧
      (ctrlcHandlerStep ⟨true, 3, none⟩).openConnections = 3 := by
  exact ⟨rfl, rfl⟩

/-- C7, amended: a process interrupt stores `false` into the shared
running flag and then immediately terminates the whole process with exit
code 0; afterwards the accept loop (which reads the flag only between
accepts) accepts no further connection, and the already-open connections
are ended by the process exit rather than left relaying. -/
theorem C7_interrupt_stops_everything (s : RelayHostState) (pending : Nat) :
    (ctrlcHandlerStep s).running = false ∧
      (ctrlcHandlerStep s).exited = some 0 ∧
      acceptLoop (ctrlcHandlerStep s) pending = ctrlcHandlerStep s := by
  refine ⟨rfl, rfl, ?_⟩
  cases pending with
  | zero => rfl
  | succ n => simp [acceptLoop, ctrlcHandlerStep]

/-! ## Claim C8 -/

/-- C8, confirmed: the `--pod` override is applied before the
`--selector` override, so with both supplied the final configuration has
`pod_name = None` and `pod_selector = Some selector` — the selector
wins; with only one of the two supplied, the other field is cleared to
`None` whatever the config file said. -/
theorem C8_selector_override_wins (config : K8sNativeConfig)
    (pod selector : String) (hp : pod ≠ "") (hs : selector ≠ "") :
    runOverrides config (some pod) (some selector) none none none =
        Except.ok
          { config with pod_name := none, pod_selector := some selector } ∧
      runOverrides config (some pod) none none none none =
        Except.ok
          { config with pod_name := some pod, pod_selector := none } ∧
      runOverrides config none (some selector) none none none =
        Except.ok
          { config with pod_name := none, pod_selector := some selector } := by
  refine ⟨?_, ?_, ?_⟩ <;>
    simp [runOverrides, applyPodOverride, applySelectorOverride,
      applyNamespaceOverride, applyPortOverrides, validatePodOrSelector,
      hp, hs, bind, Except.instMonad, Except.bind]

/-- C8 witness: a config file that sets both a pod name and a selector;
each CLI combination clears the expected fields. -/
theorem C8_selector_override_wins_witness :
    runOverrides
          { «namespace» := "default", pod_name := some "cfgpod",
            pod_selector := some "cfgsel", local_port := 8080,
            remote_port := 80, protocol := some "tcp" }
          (some "mypod") (some "app=nginx") none none none =
        Except.ok
          { «namespace» := "default", pod_name := none,
            pod_selector := some "app=nginx", local_port := 8080,
            remote_port := 80, protocol := some "tcp" } ∧
      runOverrides
          { «namespace» := "default", pod_name := some "cfgpod",
            pod_selector := some "cfgsel", local_port := 8080,
            remote_port := 80, protocol := some "tcp" }
          (some "mypod") none none none none =
        Except.ok
          { «namespace» := "default", pod_name := some "mypod",
            pod_selector := none, local_port := 8080, remote_port := 80,
            protocol := some "tcp" } ∧
      runOverrides
          { «namespace» := "default", pod_name := some "cfgpod",
            pod_selector := some "cfgsel", local_port := 8080,
            remote_port := 80, protocol := some "tcp" }
          none (some "app=nginx") none none none =
        Except.ok
          { «namespace» := "default", pod_name := none,
            pod_selector := some "app=nginx", local_port := 8080,
            remote_port := 80, protocol := some "tcp" } :=
  C8_selector_override_wins _ "mypod" "app=nginx" (by decide) (by decide)

/-! ## Claim C9 -/

/-- C9, confirmed: protocol parsing lowercases its input and accepts
`postgresql` as well as `postgres`: the result is Http exactly when the
lowercase form is `http`, Postgres exactly when it is `postgres` or
`postgresql`, and Tcp for every other string. -/
theorem C9_protocol_parsing (s : String) :
    (Protocol.fromStr s = Protocol.Http ↔ s.toLower = "http") ∧
      (Protocol.fromStr s = Protocol.Postgres ↔
        (s.toLower = "postgres" ∨ s.toLower = "postgresql")) ∧
      (Protocol.fromStr s = Protocol.Tcp ↔
        (s.toLower ≠ "http" ∧ s.toLower ≠ "postgres" ∧
          s.toLower ≠ "postgresql")) := by
  unfold Protocol.fromStr
  by_cases h1 : s.toLower = "http"
  · rw [h1]; decide
  · by_cases h2 : s.toLower = "postgres"
    · rw [h2]; decide
    · by_cases h3 : s.toLower = "postgresql"
      · rw [h3]; decide
      · simp [h1, h2, h3]

/-! ## Claim C10 -/

/-- C10, confirmed: a Postgres chunk of length at least five whose tag
byte is `Q` or `C` and whose payload after the header is not valid UTF-8
is logged as the message header only — no query/command text line, no
error, and no fallback to another rendering — and the chunk is still
forwarded to the peer unchanged. -/
theorem C10_invalid_utf8_header_only (direction timestamp : String)
    (b0 b1 b2 b3 b4 : Nat) (payload : List Nat)
    (htag : b0 = 81 ∨ b0 = 67) (hdec : utf8Decode payload = none) :
    log_postgres_message direction (b0 :: b1 :: b2 :: b3 :: b4 :: payload)
        timestamp = [pgHeader timestamp direction] ∧
      (relayDirection direction Protocol.Postgres timestamp
          [b0 :: b1 :: b2 :: b3 :: b4 :: payload]).2 =
        [b0 :: b1 :: b2 :: b3 :: b4 :: payload] := by
  constructor
  · rcases htag with h | h <;> subst h <;>
      simp [log_postgres_message, pgBody, hdec]
  · simp [relayDirection]

/-- C10 witness: tag `Q` with an invalid byte `0xFF` as payload; only
the header line is printed and the chunk is forwarded unchanged. -/
theorem C10_invalid_utf8_header_only_witness :
    log_postgres_message "→ REQUEST" [81, 0, 0, 0, 5, 255] "ts" =
        [pgHeader "ts" "→ REQUEST"] ∧
      (relayDirection "→ REQUEST" Protocol.Postgres "ts"
          [[81, 0, 0, 0, 5, 255]]).2 = [[81, 0, 0, 0, 5, 255]] :=
  C10_invalid_utf8_header_only "→ REQUEST" "ts" 81 0 0 0 5 [255]
    (Or.inl rfl) (by decide)
